import Mathlib

/-!
Verification development for the energy-wise forecasting pipeline.

This file shallowly embeds the core of the repository:
  * `src/constants.py`            — configuration constants
  * `src/models/xgboost.py`       — `train_xgboost` (feature engineering, split, scaler)
  * `src/models/prophet.py`       — `train_prophet` (series split)
  * `src/api/service.py`          — `ForecastService.forecast` and both model paths

Conventions of the embedding:
  * Numeric cell values are rationals (`ℚ`); the claims under study do not
    depend on floating-point rounding.
  * A missing cell (pandas `NaN` / `NaT`) is `Option.none`.
  * Timestamps are modelled as a whole number of hours since the epoch
    1970-01-01T00:00Z; hour-of-day, weekday (Monday = 0, as Python's
    `datetime.weekday`) and calendar month are computed from it with the
    standard civil-calendar conversion.
  * Python's `iloc` slicing resolves a slice boundary `k` on a frame of
    `n` rows as `min k n` when `k ≥ 0` and as `max 0 (n + k)` when
    `k < 0`; the split at `k = n - 720` is modelled with exactly this
    resolution (`pyBound`), so that for `n < 720` the negative index
    wraps around: training is the first `max 0 (2n - 720)` rows and
    validation the trailing remainder.
-/

set_option maxRecDepth 40000

namespace EnergyWise

/-- Deciding equality of `Except` results (used to evaluate the embedded
fallible operations at concrete inputs). -/
instance [DecidableEq ε] [DecidableEq α] : DecidableEq (Except ε α) := fun x y =>
  match x, y with
  | .error a, .error b =>
    decidable_of_iff (a = b) ⟨fun h => by rw [h], fun h => by cases h; rfl⟩
  | .error _, .ok _ => .isFalse (fun h => nomatch h)
  | .ok _, .error _ => .isFalse (fun h => nomatch h)
  | .ok a, .ok b =>
    decidable_of_iff (a = b) ⟨fun h => by rw [h], fun h => by cases h; rfl⟩

/-! ### Constants (`src/constants.py`) -/

def VALIDATION_DAYS : Nat := 30

def VALIDATION_HOURS : Nat := VALIDATION_DAYS * 24

/-- `LAG_FEATURES = [1, 24, 168]  # 1h, 24h, 7 days` -/
def LAG_FEATURES : List Nat := [1, 24, 168]

def TEMPORAL_FEATURES : List String := ["hour", "day_of_week", "month"]

def SENSOR_FEATURES : List String :=
  ["lights", "T1", "RH_1", "T2", "RH_2", "T3", "RH_3", "T4", "RH_4",
   "T5", "RH_5", "T6", "RH_6", "T7", "RH_7", "T8", "RH_8", "T9", "RH_9",
   "T_out", "Press_mm_hg", "RH_out", "Windspeed", "Visibility", "Tdewpoint"]

def MODEL_XGBOOST : String := "XGBoost"

def MODEL_PROPHET : String := "Prophet"

/-! ### Timestamps

An instant is a whole number of hours since 1970-01-01T00:00Z.  The three
calendar accessors used by the code (`dt.hour`, `dt.dayofweek` /
`weekday()`, `dt.month`) are computed exactly, via the standard civil
calendar conversion on the day count. -/

structure DateTime where
  absHour : Nat
deriving DecidableEq, Repr

def DateTime.addHours (t : DateTime) (k : Nat) : DateTime :=
  ⟨t.absHour + k⟩

def DateTime.hour (t : DateTime) : Nat := t.absHour % 24

def DateTime.days (t : DateTime) : Nat := t.absHour / 24

/-- Python `weekday()`: Monday = 0 … Sunday = 6.  Day 0 (1970-01-01) was a
Thursday, i.e. weekday 3. -/
def DateTime.weekday (t : DateTime) : Nat := (t.days + 3) % 7

/-- Month (1..12) of a day count since 1970-01-01, by the usual civil
calendar conversion (shift to era base 0000-03-01, then extract the
month from the day-of-era). -/
def civilMonth (z : Nat) : Nat :=
  let doe := (z + 719468) % 146097
  let yoe := (doe - doe / 1460 + doe / 36524 - doe / 146096) / 365
  let doy := doe - (365 * yoe + yoe / 4 - yoe / 100)
  let mp := (5 * doy + 2) / 153
  if mp < 10 then mp + 3 else mp - 9

def DateTime.month (t : DateTime) : Nat := civilMonth t.days

/-! ### Rows and data frames

A row has a date cell (the value of `pd.to_datetime(.., errors="coerce")`
on the raw date column: `none` is `NaT`), a target cell and one cell per
further column of the dataset.  `sensorCols` names those further columns,
in order; the `SENSOR_FEATURES` filter of `train_xgboost` is applied to
them. -/

structure Row where
  date : Option DateTime
  target : Option ℚ
  sensors : List (Option ℚ)
deriving DecidableEq, Repr

structure DataFrame where
  sensorCols : List String
  rows : List Row
deriving DecidableEq, Repr

/-! ### Data preparation (`load_and_prepare_data`, data_loader.py lines 53-56)

The preparation step parses the date column with `errors="coerce"`,
drops `NaT` rows and sorts with `df.sort_values(DATE_COLUMN)`.
`sort_values` uses its default `kind="quicksort"`, which pandas
documents as not stable: the relative order of rows with equal
timestamps after sorting is not specified by the library contract.  A
deterministic embedding of the sort would therefore have to invent a
tie-breaking order the program does not promise, so the preparation
pipeline is not modelled here; the training-side components below take
an already prepared `DataFrame` as input. -/

/-! ### Feature engineering (`train_xgboost`, xgboost.py lines 58-72)

```
df_features["hour"] = df_features[date_col].dt.hour
df_features["day_of_week"] = df_features[date_col].dt.dayofweek
df_features["month"] = df_features[date_col].dt.month
for lag in LAG_FEATURES:
    df_features[f"lag_..."] = df_features[target_col].shift(lag)
df_features = df_features.dropna()
```

The embedding is per row index `i`: the shifted lag column holds the
target of row `i - k` when `k ≤ i` and `NaN` (`none`) otherwise, and
`dropna` keeps row `i` exactly when every cell of the row is present —
the date (a `NaT` date makes the temporal cells `NaN` as well), the
target, every other original column, and every lag cell. -/

/-- Value of the shifted column `lag_k` at row `i`:
`df_features[target_col].shift(k)`. -/
def lagCell (df : DataFrame) (k i : Nat) : Option ℚ :=
  if k ≤ i then (df.rows[i - k]?).bind Row.target else none

/-- `seqOption l = some xs` iff every entry of `l` is present. -/
def seqOption : List (Option α) → Option (List α)
  | [] => some []
  | none :: _ => none
  | some a :: rest => (seqOption rest).map (a :: ·)

/-- A fully materialized feature row surviving `dropna`: its date, all
original sensor cells (aligned with `sensorCols`), its target and its
three lag values. -/
structure EngRow where
  date : DateTime
  sensors : List ℚ
  target : ℚ
  lag1 : ℚ
  lag24 : ℚ
  lag168 : ℚ
deriving DecidableEq, Repr

/-- Row `i` of the engineered frame, `none` when `dropna` drops it (some
cell of the row — date, target, a sensor column or a lag column — is
missing). -/
def mkEngRow (df : DataFrame) (i : Nat) : Option EngRow :=
  (df.rows[i]?).bind fun r =>
    r.date.bind fun d =>
      r.target.bind fun t =>
        (seqOption r.sensors).bind fun ss =>
          (lagCell df 1 i).bind fun l1 =>
            (lagCell df 24 i).bind fun l24 =>
              (lagCell df 168 i).bind fun l168 =>
                some ⟨d, ss, t, l1, l24, l168⟩

/-- The engineered feature rows, in positional order (the rows of
`df_features` after `dropna`). -/
def engineerFeatures (df : DataFrame) : List EngRow :=
  (List.range df.rows.length).filterMap (mkEngRow df)

/-! ### Feature column selection (xgboost.py lines 75-90) -/

/-- `[col for col in SENSOR_FEATURES if col in df_features.columns]` -/
def sensorFeaturesAvailable (df : DataFrame) : List String :=
  SENSOR_FEATURES.filter (fun c => df.sensorCols.contains c)

/-- `lag_feature_cols = [f"lag_..." for lag in LAG_FEATURES]` -/
def lagFeatureCols : List String :=
  LAG_FEATURES.map (fun k => "lag_" ++ toString k)

/-- `feature_cols = sensor_features_available + TEMPORAL_FEATURES + lag_feature_cols`.
The subsequent `[c for c in feature_cols if c in df_features.columns]`
filter is the identity: every listed column exists by construction. -/
def featureCols (df : DataFrame) : List String :=
  sensorFeaturesAvailable df ++ TEMPORAL_FEATURES ++ lagFeatureCols

/-- Value of the engineered column named `c` at a surviving row.  The
temporal and lag assignments overwrote any same-named original column,
so they take precedence; any other name is looked up among the original
columns. -/
def engCell (df : DataFrame) (er : EngRow) (c : String) : ℚ :=
  if c = "hour" then (er.date.hour : ℚ)
  else if c = "day_of_week" then (er.date.weekday : ℚ)
  else if c = "month" then (er.date.month : ℚ)
  else if c = "lag_1" then er.lag1
  else if c = "lag_24" then er.lag24
  else if c = "lag_168" then er.lag168
  else (((df.sensorCols.zip er.sensors).lookup c).getD 0)

/-- One row of `X = df_features[feature_cols].astype(float)`. -/
def xRow (df : DataFrame) (er : EngRow) : List ℚ :=
  (featureCols df).map (engCell df er)

def xgbX (df : DataFrame) : List (List ℚ) :=
  (engineerFeatures df).map (xRow df)

def xgbY (df : DataFrame) : List ℚ :=
  (engineerFeatures df).map EngRow.target

/-! ### Train/validation split (xgboost.py lines 95-97, prophet.py lines 47-49)

```
split_idx = len(X) - VALIDATION_HOURS
X_train, X_val = X.iloc[:split_idx], X.iloc[split_idx:]
```

`iloc` follows Python slice-boundary resolution: a boundary `k` on `n`
rows resolves to `min k n` when `k ≥ 0` and to `max 0 (n + k)` when
`k < 0`.  Both halves of the split use the same resolved boundary, so
the split is `take c` / `drop c` at the resolved cut `c`.  In
particular, for `360 < n < 720` the negative `split_idx` wraps around:
training is the first `2n - 720` rows and validation the trailing
`720 - n` rows — not the whole record. -/

/-- Python slice-boundary resolution of index `k` on a sequence of `n`
elements. -/
def pyBound (n : Nat) (k : Int) : Nat :=
  if k < 0 then ((n : Int) + k).toNat else min k.toNat n

/-- The resolved cut of `split_idx = len(xs) - VALIDATION_HOURS`. -/
def tailSplitIdx (xs : List α) : Nat :=
  pyBound xs.length ((xs.length : Int) - (VALIDATION_HOURS : Int))

def tailSplit (xs : List α) : List α × List α :=
  (xs.take (tailSplitIdx xs), xs.drop (tailSplitIdx xs))

/-! ### StandardScaler (xgboost.py lines 102-105)

sklearn's `StandardScaler.fit` records the per-column mean and variance
of the rows it is given, and raises
`ValueError: Found array with 0 sample(s) ...` when fitted on an empty
array.  `transform` subtracts the mean and divides by the scale.  The
scale sklearn stores is `sqrt(var)` (with zero variance mapped to scale
1); the square root of a rational is irrational in general, so the
embedding keeps the variance itself as the positive scale surrogate —
no claim under study depends on the numeric value of a scaled entry,
only on which partition the parameters were fitted from. -/

structure ScalerParams where
  mean : List ℚ
  var : List ℚ
deriving DecidableEq, Repr

def colAt (rows : List (List ℚ)) (j : Nat) : List ℚ :=
  rows.map (fun r => r.getD j 0)

def qMean (xs : List ℚ) : ℚ := xs.sum / xs.length

def qVar (xs : List ℚ) : ℚ :=
  (xs.map (fun x => (x - qMean xs) ^ 2)).sum / xs.length

def numCols (rows : List (List ℚ)) : Nat :=
  (rows.head?.map List.length).getD 0

def standardScalerFit (rows : List (List ℚ)) : Except String ScalerParams :=
  if rows.length = 0 then .error "Found array with 0 samples"
  else .ok ⟨(List.range (numCols rows)).map (fun j => qMean (colAt rows j)),
            (List.range (numCols rows)).map (fun j => qVar (colAt rows j))⟩

def sklearnScale (v : ℚ) : ℚ := if v = 0 then 1 else v

def scalerTransform (s : ScalerParams) (row : List ℚ) : List ℚ :=
  (List.range row.length).map
    (fun j => (row.getD j 0 - s.mean.getD j 0) / sklearnScale (s.var.getD j 0))

/-! ### XGBoost training (xgboost.py lines 38-138)

The gradient-boosted regressor itself is an external library; the fitted
model is recorded as the data handed to `XGBRegressor.fit`: the scaled
training matrix and targets, and the eval set (which is only monitored —
no early stopping is configured).  The MAE/RMSE metrics of the result
are not modelled: they are functions of the opaque regressor's
predictions (and RMSE takes a square root), and no claim references
them. -/

structure XGBFitted where
  trainX : List (List ℚ)
  trainY : List ℚ
  evalX : List (List ℚ)
  evalY : List ℚ
deriving DecidableEq, Repr

structure XGBoostResult where
  model : XGBFitted
  feature_names : List String
  scaler : ScalerParams
deriving DecidableEq, Repr

/-- The scaler fitted by `train_xgboost`: `scaler.fit_transform(X_train)`
fits on the training partition only (line 104). -/
def xgbFittedScaler (df : DataFrame) : Except String ScalerParams :=
  standardScalerFit (tailSplit (xgbX df)).1

def train_xgboost (df : DataFrame) : Except String XGBoostResult :=
  match standardScalerFit (tailSplit (xgbX df)).1 with
  | .error e => .error e
  | .ok s =>
    .ok { model := { trainX := ((tailSplit (xgbX df)).1).map (scalerTransform s)
                   , trainY := (tailSplit (xgbY df)).1
                   , evalX := ((tailSplit (xgbX df)).2).map (scalerTransform s)
                   , evalY := (tailSplit (xgbY df)).2 }
        , feature_names := featureCols df
        , scaler := s }

/-! ### Prophet training (prophet.py lines 34-73)

`train_prophet` renames `(date, target)` to `(ds, y)`, splits off the
same trailing `VALIDATION_HOURS` window positionally, and fits the
Prophet model on the training part.  The fitted model is recorded as the
series it was fitted on; the in-sample forecast and the MAE/RMSE
metrics, which are functions of the opaque Prophet internals, are not
modelled — no claim references them. -/

def prophetSeries (df : DataFrame) : List (Option DateTime × Option ℚ) :=
  df.rows.map (fun r => (r.date, r.target))

structure ProphetFitted where
  trainSeries : List (Option DateTime × Option ℚ)
deriving DecidableEq, Repr

def train_prophet (df : DataFrame) : ProphetFitted :=
  ⟨(tailSplit (prophetSeries df)).1⟩

/-- The validation actuals the seasonal trainer evaluates on
(`prophet_df.iloc[split_idx:]`, line 63). -/
def prophetValActual (df : DataFrame) : List (Option DateTime × Option ℚ) :=
  (tailSplit (prophetSeries df)).2

/-! ### Forecast service (`src/api/service.py`)

The loaded artifacts are opaque library objects; a loaded tree model is
a batch prediction function applied row-wise, and a loaded Prophet model
is characterized by the length of its fitted history frame together
with the `yhat` value it predicts at each row of an extended frame.
Python truthiness at the availability checks: `None` is falsy, a model
or scaler object is truthy, and a `list` is falsy exactly when empty.
The two `datetime.now(tz=UTC)` calls (one in `forecast`, one in
`_xgboost_forecast`) are modelled as a single request instant `now`
passed in. -/

/-- `np.maximum(v, 0)`: clip a negative prediction to zero. -/
def clip0 (v : ℚ) : ℚ := if v < 0 then 0 else v

structure XGBServing where
  predict : List ℚ → ℚ

structure ProphetServing where
  histLen : Nat
  yhat : Nat → ℚ

structure ForecastService where
  xgb_model : Option XGBServing
  xgb_scaler : Option ScalerParams
  prophet_model : Option ProphetServing
  feature_names : Option (List String)

/-- Python truthiness of the `feature_names` attribute: present and a
non-empty list. -/
def featureNamesTruthy : Option (List String) → Bool
  | none => false
  | some l => !l.isEmpty

/-- One serving-time feature row (service.py lines 99-103):
`dict.fromkeys(feature_names, 0.0)` then the three temporal keys are
set from the given instant; selecting `[self.feature_names]` keeps the
schema order and drops any temporal key not in the schema. -/
def servingFeatureRow (names : List String) (t : DateTime) : List ℚ :=
  names.map (fun c =>
    if c = "hour" then (t.hour : ℚ)
    else if c = "day_of_week" then (t.weekday : ℚ)
    else if c = "month" then (t.month : ℚ)
    else 0)

/-- The `horizon` serving-time feature rows: row `i` is built at
`future_time = now + timedelta(hours=i)` for `i in range(horizon)`
(service.py lines 97-98). -/
def xgbServingRows (names : List String) (now : DateTime) (horizon : Nat) :
    List (List ℚ) :=
  (List.range horizon).map (fun i => servingFeatureRow names (now.addHours i))

/-- `ForecastService._xgboost_forecast`.  Scaling is applied only when a
scaler is present; predictions are clipped with `np.maximum(_, 0)`. -/
def xgboostForecastValues (svc : ForecastService) (now : DateTime)
    (horizon : Nat) : Except String (List ℚ) :=
  if !featureNamesTruthy svc.feature_names || svc.xgb_model.isNone then
    .error "XGBoost model or feature names not initialized"
  else
    match svc.xgb_model, svc.feature_names with
    | some m, some names =>
      let rows := xgbServingRows names now horizon
      let scaled :=
        match svc.xgb_scaler with
        | some s => rows.map (scalerTransform s)
        | none => rows
      .ok ((scaled.map m.predict).map clip0)
    | _, _ => .error "XGBoost model or feature names not initialized"

/-- `ForecastService._prophet_forecast`: extend the frame by `horizon`
periods, predict the whole frame, take the trailing `horizon` `yhat`
values, clip at zero. -/
def prophetForecastValues (svc : ForecastService) (horizon : Nat) :
    Except String (List ℚ) :=
  match svc.prophet_model with
  | none => .error "Prophet model not initialized"
  | some p =>
    let yhatFull := (List.range (p.histLen + horizon)).map p.yhat
    .ok ((yhatFull.drop p.histLen).map clip0)

structure ForecastOutput where
  values : List ℚ
  timestamps : List DateTime
  modelName : String
deriving DecidableEq, Repr

/-- `[(now + timedelta(hours=i)) for i in range(1, horizon + 1)]`
(service.py line 76). -/
def forecastTimestamps (now : DateTime) (horizon : Nat) : List DateTime :=
  (List.range horizon).map (fun i => now.addHours (i + 1))

/-- The availability check `forecast` performs for the requested family
(service.py lines 61-72): tree path needs a truthy model and truthy
feature names, seasonal path needs a truthy Prophet model. -/
def requestedMissing (svc : ForecastService) (use_xgboost : Bool) : Bool :=
  if use_xgboost then svc.xgb_model.isNone || !featureNamesTruthy svc.feature_names
  else svc.prophet_model.isNone

/-- The message of the `ValueError` raised when the requested family is
unavailable (the retraining hint of the source message is elided). -/
def unavailableMessage (use_xgboost : Bool) : String :=
  if use_xgboost then "XGBoost model or feature names not available"
  else "Prophet model not available"

/-- `ForecastService.forecast`. -/
def ForecastService.forecast (svc : ForecastService) (now : DateTime)
    (horizon : Nat) (use_xgboost : Bool) : Except String ForecastOutput :=
  if use_xgboost then
    if svc.xgb_model.isNone || !featureNamesTruthy svc.feature_names then
      .error (unavailableMessage true)
    else
      match xgboostForecastValues svc now horizon with
      | .error e => .error e
      | .ok vs => .ok ⟨vs, forecastTimestamps now horizon, MODEL_XGBOOST⟩
  else
    if svc.prophet_model.isNone then
      .error (unavailableMessage false)
    else
      match prophetForecastValues svc horizon with
      | .error e => .error e
      | .ok vs => .ok ⟨vs, forecastTimestamps now horizon, MODEL_PROPHET⟩

/-! ## Helper lemmas -/

theorem seqOption_isSome {l : List (Option α)} :
    (seqOption l).isSome = true ↔ ∀ v ∈ l, v.isSome = true := by
  induction l with
  | nil => simp [seqOption]
  | cons hd tl ih =>
    cases hd with
    | none => simp [seqOption]
    | some a => simpa [seqOption] using ih

/-- Length of a `filterMap` over `range n` whose function is defined
exactly from index `c` on. -/
theorem length_filterMap_range (f : Nat → Option α) (n c : Nat)
    (h : ∀ i, i < n → ((f i).isSome = true ↔ c ≤ i)) :
    ((List.range n).filterMap f).length = n - c := by
  induction n with
  | zero => simp
  | succ n ih =>
    rw [List.range_succ, List.filterMap_append, List.length_append,
      ih (fun i hi => h i (Nat.lt_succ_of_lt hi))]
    rcases hfn : f n with _ | a
    · have h0 : ¬ c ≤ n := fun hcle => by
        have hsome := (h n (Nat.lt_succ_self n)).mpr hcle
        rw [hfn] at hsome
        simp at hsome
      simp only [List.filterMap, hfn, List.length_nil]
      omega
    · have h1 : c ≤ n := (h n (Nat.lt_succ_self n)).mp (by rw [hfn]; rfl)
      simp only [List.filterMap, hfn, List.length_cons, List.length_nil]
      omega

/-- `0 ≤ np.maximum(v, 0)`. -/
theorem clip0_nonneg (v : ℚ) : 0 ≤ clip0 v := by
  unfold clip0
  split
  · exact le_refl 0
  · exact le_of_not_lt (by assumption)

/-! ## Claims -/

/-- The alignment the claim asserts for the serving path: feature row `i`
is built from the target timestamp of output forecast point `i`
(temporal components from that timestamp, all other schema columns
zero, i.e. the row equals `servingFeatureRow` at that timestamp). -/
def servingRowsTargetAligned (names : List String) (now : DateTime)
    (horizon : Nat) : Prop :=
  ∀ i, i < horizon →
    (xgbServingRows names now horizon).getD i [] =
      servingFeatureRow names ((forecastTimestamps now horizon).getD i now)

instance (names : List String) (now : DateTime) (horizon : Nat) :
    Decidable (servingRowsTargetAligned names now horizon) := by
  unfold servingRowsTargetAligned
  exact Nat.decidableBallLT _ _

/-- **C1, counterexample.**  With schema `["hour"]`, request time
1970-01-01T00:00Z and horizon 1, the single serving feature row carries
hour 0 (= the hour of "now"), while the corresponding output forecast
point is at 01:00; the claimed alignment with the target timestamp
fails. -/
theorem servingRows_not_target_aligned :
    ¬ servingRowsTargetAligned ["hour"] ⟨0⟩ 1 := by decide

/-- **C1, amended.**  Serving feature row `i` (0-based) is built from
`now + i` hours — one hour *before* the target timestamp of output
forecast point `i`, which is `now + (i + 1)` hours — with its temporal
components (hour, day_of_week, month) taken from `now + i`, and every
other schema column (sensor and lag features) set to zero. -/
theorem servingRow_built_one_hour_before_target (names : List String)
    (now : DateTime) (horizon i j : Nat) (hi : i < horizon)
    (hj : j < names.length) :
    (xgbServingRows names now horizon)[i]? =
      some (servingFeatureRow names (now.addHours i)) ∧
    (forecastTimestamps now horizon)[i]? =
      some ((now.addHours i).addHours 1) ∧
    (servingFeatureRow names (now.addHours i))[j]? =
      some (if names.getD j "" = "hour" then ((now.addHours i).hour : ℚ)
            else if names.getD j "" = "day_of_week" then
              ((now.addHours i).weekday : ℚ)
            else if names.getD j "" = "month" then
              ((now.addHours i).month : ℚ)
            else 0) := by
  refine ⟨?_, ?_, ?_⟩
  · rw [xgbServingRows, List.getElem?_map, List.getElem?_range hi, Option.map_some']
  · rw [forecastTimestamps, List.getElem?_map, List.getElem?_range hi,
      Option.map_some']
    rfl
  · rw [servingFeatureRow, List.getElem?_map,
      List.getElem?_eq_getElem hj, Option.map_some',
      List.getD_eq_getElem names "" hj]

/-- **C2 (amended).**  The train/validation split of the tree-model
trainer is strictly chronological by position: training and validation
are complementary contiguous pieces of the engineered frame (their
concatenation is the frame in order), and every validation timestamp is
greater than every training timestamp whenever the engineered
timestamps are strictly increasing.  The validation partition is the
trailing `VALIDATION_HOURS = 720` rows when `n ≥ 720`; for `n < 720`
the negative split index wraps around under Python slicing, so the
validation partition is the trailing `min n (720 - n)` rows (all `n`
rows only when `n ≤ 360`; the trailing `720 - n` rows when
`360 < n < 720`).  The seasonal trainer applies the identical
positional split to its (timestamp, value) series. -/
theorem tailSplit_python_slice_chronological (df : DataFrame)
    (hs : (engineerFeatures df).Pairwise
      (fun a b : EngRow => a.date.absHour < b.date.absHour)) :
    VALIDATION_HOURS = 720 ∧
    (tailSplit (engineerFeatures df)).1 ++ (tailSplit (engineerFeatures df)).2
      = engineerFeatures df ∧
    (∀ a ∈ (tailSplit (engineerFeatures df)).1,
      ∀ b ∈ (tailSplit (engineerFeatures df)).2, a.date.absHour < b.date.absHour) ∧
    (tailSplit (engineerFeatures df)).2.length =
      (if 720 ≤ (engineerFeatures df).length then 720
       else min (engineerFeatures df).length
         (720 - (engineerFeatures df).length)) ∧
    (train_prophet df).trainSeries = (tailSplit (prophetSeries df)).1 ∧
    prophetValActual df = (tailSplit (prophetSeries df)).2 ∧
    (train_prophet df).trainSeries ++ prophetValActual df = prophetSeries df := by
  refine ⟨rfl, List.take_append_drop _ _, ?_, ?_, rfl, rfl,
    List.take_append_drop _ _⟩
  · intro a ha b hb
    have hsplit := hs
    rw [← List.take_append_drop
      (tailSplitIdx (engineerFeatures df)) (engineerFeatures df)] at hsplit
    exact (List.pairwise_append.mp hsplit).2.2 a ha b hb
  · show ((engineerFeatures df).drop
      (tailSplitIdx (engineerFeatures df))).length = _
    rw [List.length_drop]
    simp only [tailSplitIdx, pyBound, VALIDATION_HOURS, VALIDATION_DAYS]
    split_ifs <;> omega

/-- **C3.**  When the engineered feature set is empty after lag-based
row dropping, `train_xgboost` fails — the empty training partition is
rejected at scaler fitting (sklearn's zero-sample error), before any
model is fitted — rather than returning a trained result. -/
theorem train_xgboost_fails_on_empty_features (df : DataFrame)
    (hempty : engineerFeatures df = []) :
    train_xgboost df = .error "Found array with 0 samples" := by
  have hX : xgbX df = [] := by rw [xgbX, hempty]; rfl
  have hY : xgbY df = [] := by rw [xgbY, hempty]; rfl
  unfold train_xgboost
  rw [hX, hY]
  rfl

/-- Inversion of a successful `forecast` call: the timestamps are the
hourly grid, the model name matches the requested family, and the
values come from that family's forecasting routine. -/
theorem forecast_ok_inv (svc : ForecastService) (now : DateTime)
    (horizon : Nat) (use_xgboost : Bool) (out : ForecastOutput)
    (hok : svc.forecast now horizon use_xgboost = .ok out) :
    out.timestamps = forecastTimestamps now horizon ∧
    out.modelName = (if use_xgboost then MODEL_XGBOOST else MODEL_PROPHET) ∧
    ((use_xgboost = true ∧ xgboostForecastValues svc now horizon = .ok out.values) ∨
     (use_xgboost = false ∧ prophetForecastValues svc horizon = .ok out.values)) := by
  unfold ForecastService.forecast at hok
  cases use_xgboost with
  | true =>
    rw [if_pos rfl] at hok
    by_cases hcond : (svc.xgb_model.isNone || !featureNamesTruthy svc.feature_names) = true
    · rw [if_pos hcond] at hok
      exact Except.noConfusion hok
    · rw [if_neg hcond] at hok
      cases hxf : xgboostForecastValues svc now horizon with
      | error e =>
        rw [hxf] at hok
        exact Except.noConfusion hok
      | ok vs =>
        rw [hxf] at hok
        have h := Except.ok.inj hok
        subst h
        exact ⟨rfl, rfl, Or.inl ⟨rfl, rfl⟩⟩
  | false =>
    rw [if_neg Bool.false_ne_true] at hok
    by_cases hcond : svc.prophet_model.isNone = true
    · rw [if_pos hcond] at hok
      exact Except.noConfusion hok
    · rw [if_neg hcond] at hok
      cases hpf : prophetForecastValues svc horizon with
      | error e =>
        rw [hpf] at hok
        exact Except.noConfusion hok
      | ok vs =>
        rw [hpf] at hok
        have h := Except.ok.inj hok
        subst h
        exact ⟨rfl, rfl, Or.inr ⟨rfl, rfl⟩⟩

/-- A successful tree-path value list is a clipped prediction list. -/
theorem xgboostForecastValues_ok_shape (svc : ForecastService) (now : DateTime)
    (horizon : Nat) (vs : List ℚ)
    (h : xgboostForecastValues svc now horizon = .ok vs) :
    ∃ raw : List ℚ, vs = raw.map clip0 := by
  unfold xgboostForecastValues at h
  by_cases hcond : (!featureNamesTruthy svc.feature_names || svc.xgb_model.isNone) = true
  · rw [if_pos hcond] at h
    exact Except.noConfusion h
  · rw [if_neg hcond] at h
    cases hm : svc.xgb_model with
    | none =>
      rw [hm] at h
      cases hn : svc.feature_names with
      | none => rw [hn] at h; exact Except.noConfusion h
      | some names => rw [hn] at h; exact Except.noConfusion h
    | some m =>
      rw [hm] at h
      cases hn : svc.feature_names with
      | none => rw [hn] at h; exact Except.noConfusion h
      | some names =>
        rw [hn] at h
        exact ⟨_, (Except.ok.inj h).symm⟩

/-- A successful seasonal-path value list is a clipped prediction list. -/
theorem prophetForecastValues_ok_shape (svc : ForecastService)
    (horizon : Nat) (vs : List ℚ)
    (h : prophetForecastValues svc horizon = .ok vs) :
    ∃ raw : List ℚ, vs = raw.map clip0 := by
  unfold prophetForecastValues at h
  cases hp : svc.prophet_model with
  | none => rw [hp] at h; exact Except.noConfusion h
  | some p =>
    rw [hp] at h
    exact ⟨_, (Except.ok.inj h).symm⟩

/-- **C4.**  Whenever `forecast` succeeds — for either model choice —
it returns exactly `horizon` timestamps, which are the consecutive
hourly instants `now + 1h, …, now + horizon h`, strictly increasing. -/
theorem forecast_timestamps_hourly (svc : ForecastService) (now : DateTime)
    (horizon : Nat) (use_xgboost : Bool) (out : ForecastOutput)
    (h1 : 1 ≤ horizon) (h2 : horizon ≤ 168)
    (hok : svc.forecast now horizon use_xgboost = .ok out) :
    out.timestamps = forecastTimestamps now horizon ∧
    out.timestamps.length = horizon ∧
    (∀ i, i < horizon → out.timestamps[i]? = some (now.addHours (i + 1))) ∧
    out.timestamps.Pairwise (fun a b : DateTime => a.absHour < b.absHour) := by
  have hts : out.timestamps = forecastTimestamps now horizon :=
    (forecast_ok_inv svc now horizon use_xgboost out hok).1
  refine ⟨hts, ?_, ?_, ?_⟩
  · rw [hts, forecastTimestamps, List.length_map, List.length_range]
  · intro i hi
    rw [hts, forecastTimestamps, List.getElem?_map, List.getElem?_range hi,
      Option.map_some']
  · rw [hts, forecastTimestamps]
    refine List.pairwise_map.mpr ?_
    have := List.pairwise_lt_range horizon
    exact this.imp (fun hab => by
      show (_ : DateTime).absHour < (_ : DateTime).absHour
      simp only [DateTime.addHours]
      omega)

/-- **C5.**  Every forecast value returned by a successful `forecast`
request — on either model path — is non-negative: raw predictions are
clipped at zero. -/
theorem forecast_values_nonneg (svc : ForecastService) (now : DateTime)
    (horizon : Nat) (use_xgboost : Bool) (out : ForecastOutput)
    (hok : svc.forecast now horizon use_xgboost = .ok out) :
    ∀ v ∈ out.values, 0 ≤ v := by
  have hvals : ∃ raw : List ℚ, out.values = raw.map clip0 := by
    rcases (forecast_ok_inv svc now horizon use_xgboost out hok).2.2 with
      ⟨_, hx⟩ | ⟨_, hp⟩
    · exact xgboostForecastValues_ok_shape svc now horizon out.values hx
    · exact prophetForecastValues_ok_shape svc horizon out.values hp
  obtain ⟨raw, hraw⟩ := hvals
  intro v hv
  rw [hraw] at hv
  obtain ⟨x, _, hx⟩ := List.mem_map.mp hv
  rw [← hx]
  exact clip0_nonneg x

/-- **C6.**  When the artifacts of the requested model family are absent
(tree model or feature names missing for the tree path, seasonal model
missing for the seasonal path), `forecast` fails with the unavailability
`ValueError` naming the missing model family, and never returns a
result — in particular, never one produced by the other family. -/
theorem forecast_unavailable_model_errors (svc : ForecastService)
    (now : DateTime) (horizon : Nat) (use_xgboost : Bool)
    (hmiss : requestedMissing svc use_xgboost = true) :
    svc.forecast now horizon use_xgboost = .error (unavailableMessage use_xgboost) ∧
    (∀ out, svc.forecast now horizon use_xgboost ≠ .ok out) := by
  have herr :
      svc.forecast now horizon use_xgboost = .error (unavailableMessage use_xgboost) := by
    unfold ForecastService.forecast
    cases use_xgboost with
    | true =>
      rw [if_pos rfl]
      have hc : (svc.xgb_model.isNone || !featureNamesTruthy svc.feature_names) = true := by
        unfold requestedMissing at hmiss
        rwa [if_pos rfl] at hmiss
      rw [if_pos hc]
    | false =>
      rw [if_neg Bool.false_ne_true]
      have hc : svc.prophet_model.isNone = true := by
        unfold requestedMissing at hmiss
        rwa [if_neg Bool.false_ne_true] at hmiss
      rw [if_pos hc]
  exact ⟨herr, fun out hout => Except.noConfusion (herr.symm.trans hout)⟩

/-- The survival test of `dropna`, as a Boolean over the cells of row
`i`: present date, target, sensor cells and lag cells. -/
theorem mkEngRow_isSome_eq (df : DataFrame) (i : Nat) :
    (mkEngRow df i).isSome =
      ((df.rows[i]?).map (fun r =>
        r.date.isSome && r.target.isSome && (seqOption r.sensors).isSome &&
        (lagCell df 1 i).isSome && (lagCell df 24 i).isSome &&
        (lagCell df 168 i).isSome)).getD false := by
  rw [mkEngRow]
  rcases df.rows[i]? with _ | r
  · rfl
  · simp only [Option.some_bind, Option.map_some', Option.getD_some]
    rcases r.date with _ | d <;> rcases r.target with _ | t <;>
      rcases seqOption r.sensors with _ | ss <;>
      rcases lagCell df 1 i with _ | l1 <;>
      rcases lagCell df 24 i with _ | l24 <;>
      rcases lagCell df 168 i with _ | l168 <;> rfl

/-- A lag cell is present as soon as the offset fits inside the record
and every target is present. -/
theorem lagCell_isSome (df : DataFrame) (k i : Nat) (hk : k ≤ i)
    (hi : i < df.rows.length)
    (htargets : ∀ r ∈ df.rows, r.target.isSome = true) :
    (lagCell df k i).isSome = true := by
  rw [lagCell, if_pos hk]
  have hik : i - k < df.rows.length := Nat.lt_of_le_of_lt (Nat.sub_le i k) hi
  rw [List.getElem?_eq_getElem hik]
  simp only [Option.some_bind]
  exact htargets _ (List.getElem_mem hik)

/-- On a record whose dates, targets and sensor cells are all present,
row `i` survives `dropna` exactly when it has full lag history
(`168 ≤ i`). -/
theorem mkEngRow_isSome_iff (df : DataFrame) (i : Nat)
    (hi : i < df.rows.length)
    (hfull : ∀ r ∈ df.rows, r.date.isSome = true ∧ r.target.isSome = true ∧
      ∀ v ∈ r.sensors, v.isSome = true) :
    ((mkEngRow df i).isSome = true ↔ 168 ≤ i) := by
  have htargets : ∀ r ∈ df.rows, r.target.isSome = true :=
    fun r hr => (hfull r hr).2.1
  obtain ⟨hd, ht, hsens⟩ := hfull df.rows[i] (List.getElem_mem hi)
  rw [mkEngRow_isSome_eq, List.getElem?_eq_getElem hi, Option.map_some',
    Option.getD_some, hd, ht]
  rw [(seqOption_isSome (l := df.rows[i].sensors)).mpr hsens]
  constructor
  · intro h
    by_contra h168
    have hnone : lagCell df 168 i = none := by
      rw [lagCell, if_neg h168]
    rw [hnone] at h
    simp at h
  · intro h168
    rw [lagCell_isSome df 1 i (by omega) hi htargets,
      lagCell_isSome df 24 i (by omega) hi htargets,
      lagCell_isSome df 168 i h168 hi htargets]
    rfl

/-- **C7.**  On a record of `n ≥ 168` rows with parseable dates and no
missing values outside the lag columns, the engineered feature frame
has exactly `n - 168` rows (input length minus the largest configured
lag offset), and every emitted row stems from an index `i ≥ 168`, so
each of its lag features looks up the target at the in-range index
`i - k` — never before the start of the record. -/
theorem engineerFeatures_length_and_lags (df : DataFrame)
    (hn : 168 ≤ df.rows.length)
    (hfull : ∀ r ∈ df.rows, r.date.isSome = true ∧ r.target.isSome = true ∧
      ∀ v ∈ r.sensors, v.isSome = true) :
    (engineerFeatures df).length = df.rows.length - 168 ∧
    ∀ er ∈ engineerFeatures df, ∃ i, 168 ≤ i ∧ i < df.rows.length ∧
      mkEngRow df i = some er ∧
      ∀ k ∈ LAG_FEATURES, k ≤ i ∧
        lagCell df k i = (df.rows[i - k]?).bind Row.target := by
  have hiff : ∀ i, i < df.rows.length →
      ((mkEngRow df i).isSome = true ↔ 168 ≤ i) :=
    fun i hi => mkEngRow_isSome_iff df i hi hfull
  constructor
  · exact length_filterMap_range (mkEngRow df) _ 168 hiff
  · intro er her
    obtain ⟨i, hmem, hsome⟩ := List.mem_filterMap.mp her
    have hirange : i < df.rows.length := List.mem_range.mp hmem
    have h168 : 168 ≤ i := (hiff i hirange).mp (by rw [hsome]; rfl)
    refine ⟨i, h168, hirange, hsome, ?_⟩
    intro k hk
    have hk168 : k ≤ 168 := by
      simp only [LAG_FEATURES, List.mem_cons, List.not_mem_nil, or_false] at hk
      rcases hk with rfl | rfl | rfl <;> omega
    have hki : k ≤ i := le_trans hk168 h168
    exact ⟨hki, by rw [lagCell, if_pos hki]⟩

/-- **C8.**  The feature scaler of `train_xgboost` is a function of the
training partition alone: two runs whose engineered feature matrices
agree on the training partition fit identical scaler parameters, the
scaler returned in the result is exactly the one fitted on the training
partition, and the validation partition handed to the regressor's eval
set is transformed with that same fitted scaler (never a re-fitted
one). -/
theorem scaler_fit_on_train_partition_only (df1 df2 : DataFrame)
    (htr : (tailSplit (xgbX df1)).1 = (tailSplit (xgbX df2)).1) :
    xgbFittedScaler df1 = xgbFittedScaler df2 ∧
    (train_xgboost df1).map XGBoostResult.scaler = xgbFittedScaler df1 ∧
    (train_xgboost df1).map (fun r => r.model.evalX) =
      (xgbFittedScaler df1).map
        (fun s => (tailSplit (xgbX df1)).2.map (scalerTransform s)) := by
  have h2b : xgbFittedScaler df2 = xgbFittedScaler df1 := by
    rw [xgbFittedScaler, xgbFittedScaler, htr]
  cases hfit : standardScalerFit (tailSplit (xgbX df1)).1 with
  | error e =>
    have h1 : train_xgboost df1 = .error e := by
      unfold train_xgboost
      rw [hfit]
    have h2 : xgbFittedScaler df1 = .error e := hfit
    rw [h1, h2, h2b, h2]
    exact ⟨rfl, rfl, rfl⟩
  | ok s =>
    have h1 : train_xgboost df1 =
        .ok { model := { trainX := ((tailSplit (xgbX df1)).1).map (scalerTransform s)
                       , trainY := (tailSplit (xgbY df1)).1
                       , evalX := ((tailSplit (xgbX df1)).2).map (scalerTransform s)
                       , evalY := (tailSplit (xgbY df1)).2 }
            , feature_names := featureCols df1
            , scaler := s } := by
      unfold train_xgboost
      rw [hfit]
    have h2 : xgbFittedScaler df1 = .ok s := hfit
    rw [h1, h2, h2b, h2]
    exact ⟨rfl, rfl, rfl⟩

/-- **C10.**  `dropna` removes from the engineered frame every row with
a missing value in any column — date, target, any sensor column, or a
lag column — not only the leading rows lacking full lag history; a row
survives exactly when every one of its cells is present.  The surviving
rows are then split positionally, so a dropped row is absent from both
the training and the validation partition (their concatenation is the
engineered frame). -/
theorem dropna_drops_any_missing_cell (df : DataFrame) (i : Nat)
    (hi : i < df.rows.length) :
    ((mkEngRow df i).isSome = true ↔
      (df.rows[i].date.isSome = true ∧ df.rows[i].target.isSome = true ∧
        (∀ v ∈ df.rows[i].sensors, v.isSome = true) ∧
        ∀ k ∈ LAG_FEATURES, (lagCell df k i).isSome = true)) ∧
    (tailSplit (engineerFeatures df)).1 ++ (tailSplit (engineerFeatures df)).2
      = engineerFeatures df := by
  refine ⟨?_, List.take_append_drop _ _⟩
  rw [mkEngRow_isSome_eq, List.getElem?_eq_getElem hi, Option.map_some',
    Option.getD_some]
  simp only [Bool.and_eq_true, seqOption_isSome, LAG_FEATURES,
    List.forall_mem_cons, List.forall_mem_nil]
  constructor
  · rintro ⟨⟨⟨⟨⟨hd, ht⟩, hss⟩, h1⟩, h24⟩, h168⟩
    exact ⟨hd, ht, hss, h1, h24, h168, List.forall_mem_nil _⟩
  · rintro ⟨hd, ht, hss, h1, h24, h168, -⟩
    exact ⟨⟨⟨⟨⟨hd, ht⟩, hss⟩, h1⟩, h24⟩, h168⟩

/-! ## Concrete evaluation data -/

/-- A small serving schema: one sensor column, the three temporal
columns, one lag column. -/
def exNames : List String := ["T1", "hour", "day_of_week", "month", "lag_1"]

def exNow : DateTime := ⟨0⟩

/-- A fully populated hourly record of `n` rows with no sensor columns. -/
def witRows (n : Nat) : List Row :=
  (List.range n).map (fun i => ⟨some ⟨i⟩, some (i : ℚ), []⟩)

/-- 169 fully populated hourly rows: exactly one engineered row. -/
def df169 : DataFrame := ⟨[], witRows 169⟩

/-- 529 fully populated hourly rows: 361 engineered feature rows, so
the split index `361 - 720` is negative and wraps around to the cut
`2 * 361 - 720 = 2` (training = 2 rows, validation = 359 rows). -/
def df529 : DataFrame := ⟨[], witRows 529⟩

/-- Row `i` of the variant record: identical to the corresponding
`witRows` row except that the target at index 500 is 999. -/
def bRow (i : Nat) : Row :=
  ⟨some ⟨i⟩, some (if i = 500 then 999 else (i : ℚ)), []⟩

/-- Like `df529`, but the raw target at index 500 differs.  Index 500
feeds only the validation side of the split: the training partition is
the first two engineered rows (indices 168 and 169), whose cells and
lag lookups reach indices ≤ 169 only. -/
def df529b : DataFrame := ⟨[], (List.range 529).map bRow⟩

/-! ### Facts about the 529-row records, established without evaluating
the full frames.

The projection equations below are definitional; they are stated as
rewrite rules because unfolding `take`/`drop` definitionally on a
concrete frame would force a full evaluation of it. -/

theorem tailSplit_fst (xs : List α) :
    (tailSplit xs).1 = xs.take (tailSplitIdx xs) := rfl

theorem tailSplit_snd (xs : List α) :
    (tailSplit xs).2 = xs.drop (tailSplitIdx xs) := rfl

theorem xgbX_eq (df : DataFrame) :
    xgbX df = (engineerFeatures df).map (xRow df) := rfl

theorem prophetSeries_eq (df : DataFrame) :
    prophetSeries df = df.rows.map (fun r => (r.date, r.target)) := rfl

theorem prophetValActual_eq (df : DataFrame) :
    prophetValActual df =
      (prophetSeries df).drop (tailSplitIdx (prophetSeries df)) := rfl

theorem witRows_length (n : Nat) : (witRows n).length = n := by
  unfold witRows
  rw [List.length_map, List.length_range]

theorem witRows_getElem (n i : Nat) (h : i < n) :
    (witRows n)[i]? = some ⟨some ⟨i⟩, some (i : ℚ), []⟩ := by
  unfold witRows
  rw [List.getElem?_map, List.getElem?_range h, Option.map_some']

theorem witRows_full (n : Nat) : ∀ r ∈ witRows n,
    r.date.isSome = true ∧ r.target.isSome = true ∧
      ∀ v ∈ r.sensors, v.isSome = true := by
  intro r hr
  obtain ⟨i, -, rfl⟩ := List.mem_map.mp hr
  exact ⟨rfl, rfl, fun v hv => absurd hv (List.not_mem_nil v)⟩

theorem df529_rows_length : df529.rows.length = 529 := witRows_length 529

theorem df529b_rows_length : df529b.rows.length = 529 := by
  show ((List.range 529).map bRow).length = 529
  rw [List.length_map, List.length_range]

theorem df529b_getElem (i : Nat) (h : i < 529) :
    df529b.rows[i]? = some (bRow i) := by
  show ((List.range 529).map bRow)[i]? = some (bRow i)
  rw [List.getElem?_map, List.getElem?_range h, Option.map_some']

theorem df529b_full : ∀ r ∈ df529b.rows,
    r.date.isSome = true ∧ r.target.isSome = true ∧
      ∀ v ∈ r.sensors, v.isSome = true := by
  intro r hr
  obtain ⟨i, -, rfl⟩ := List.mem_map.mp hr
  exact ⟨rfl, rfl, fun v hv => absurd hv (List.not_mem_nil v)⟩

/-- The two records agree on every row index reachable from the first
two engineered rows. -/
theorem rowsAgreeBelow170 : ∀ j, j < 170 → df529.rows[j]? = df529b.rows[j]? := by
  intro j hj
  show (witRows 529)[j]? = df529b.rows[j]?
  rw [witRows_getElem 529 j (by omega), df529b_getElem j (by omega)]
  simp only [bRow]
  rw [if_neg (by omega : ¬ j = 500)]

theorem lagCell_agree (k i : Nat) (hi : i < 170) :
    lagCell df529 k i = lagCell df529b k i := by
  unfold lagCell
  by_cases hk : k ≤ i
  · rw [if_pos hk, if_pos hk, rowsAgreeBelow170 (i - k) (by omega)]
  · rw [if_neg hk, if_neg hk]

theorem mkEngRow_agree (i : Nat) (hi : i < 170) :
    mkEngRow df529 i = mkEngRow df529b i := by
  simp only [mkEngRow]
  rw [rowsAgreeBelow170 i hi, lagCell_agree 1 i hi, lagCell_agree 24 i hi,
    lagCell_agree 168 i hi]

/-- The engineered row count of a record with no missing cells, via the
survival characterization (no evaluation of the frame). -/
theorem engineerFeatures_length_of_full (df : DataFrame)
    (hfull : ∀ r ∈ df.rows, r.date.isSome = true ∧ r.target.isSome = true ∧
      ∀ v ∈ r.sensors, v.isSome = true) :
    (engineerFeatures df).length = df.rows.length - 168 :=
  length_filterMap_range (mkEngRow df) df.rows.length 168
    (fun i hi => mkEngRow_isSome_iff df i hi hfull)

theorem engineerFeatures_df529_length : (engineerFeatures df529).length = 361 := by
  rw [engineerFeatures_length_of_full df529 (witRows_full 529), df529_rows_length]

theorem engineerFeatures_df529b_length :
    (engineerFeatures df529b).length = 361 := by
  rw [engineerFeatures_length_of_full df529b df529b_full, df529b_rows_length]

/-- Taking as many elements of a range `filterMap` as its length on a
shorter range yields exactly the shorter range's `filterMap`. -/
theorem filterMap_range_take_eq (f : Nat → Option α) (n m : Nat) (hmn : m ≤ n) :
    ((List.range n).filterMap f).take (((List.range m).filterMap f).length) =
      (List.range m).filterMap f := by
  have hsplit : List.range n = List.range m ++ (List.range (n - m)).map (m + ·) := by
    have hm : m + (n - m) = n := by omega
    rw [← hm, List.range_add]
    simp [hm]
  rw [hsplit, List.filterMap_append,
    List.take_append_of_le_length (Nat.le_refl _),
    List.take_of_length_le (Nat.le_refl _)]

/-- The first two engineered rows of a full record with at least 170
rows come from raw indices below 170. -/
theorem take_two_engineerFeatures (df : DataFrame) (h170 : 170 ≤ df.rows.length)
    (hfull : ∀ r ∈ df.rows, r.date.isSome = true ∧ r.target.isSome = true ∧
      ∀ v ∈ r.sensors, v.isSome = true) :
    (engineerFeatures df).take 2 = (List.range 170).filterMap (mkEngRow df) := by
  have hchunk : ((List.range 170).filterMap (mkEngRow df)).length = 2 :=
    length_filterMap_range (mkEngRow df) 170 168
      (fun i hi => mkEngRow_isSome_iff df i (Nat.lt_of_lt_of_le hi h170) hfull)
  have hmain := filterMap_range_take_eq (mkEngRow df) df.rows.length 170 h170
  rw [hchunk] at hmain
  exact hmain

theorem tailSplitIdx_361 (xs : List α) (h : xs.length = 361) :
    tailSplitIdx xs = 2 := by
  simp only [tailSplitIdx]
  rw [h]
  decide

theorem tailSplitIdx_529 (xs : List α) (h : xs.length = 529) :
    tailSplitIdx xs = 338 := by
  simp only [tailSplitIdx]
  rw [h]
  decide

theorem xgbX_df529_length : (xgbX df529).length = 361 := by
  rw [xgbX_eq, List.length_map, engineerFeatures_df529_length]

theorem xgbX_df529b_length : (xgbX df529b).length = 361 := by
  rw [xgbX_eq, List.length_map, engineerFeatures_df529b_length]

/-- The training partitions of `df529` and `df529b` coincide: the cut
is 2 on both sides, the first two engineered rows stem from raw indices
below 170, and the two records agree there. -/
theorem trainPartition_df529_eq :
    (tailSplit (xgbX df529)).1 = (tailSplit (xgbX df529b)).1 := by
  rw [tailSplit_fst, tailSplit_fst,
    tailSplitIdx_361 _ xgbX_df529_length, tailSplitIdx_361 _ xgbX_df529b_length,
    xgbX_eq df529, xgbX_eq df529b, ← List.map_take, ← List.map_take,
    take_two_engineerFeatures df529 (by rw [df529_rows_length]; omega)
      (witRows_full 529),
    take_two_engineerFeatures df529b (by rw [df529b_rows_length]; omega)
      df529b_full,
    List.filterMap_congr (fun i hi => mkEngRow_agree i (List.mem_range.mp hi))]
  have hxrow : xRow df529 = xRow df529b := rfl
  rw [hxrow]

theorem trainPartition_df529_length : (tailSplit (xgbX df529)).1.length = 2 := by
  rw [tailSplit_fst, tailSplitIdx_361 _ xgbX_df529_length, List.length_take,
    xgbX_df529_length]
  omega

/-- The scaler fit of `df529` succeeds: its training partition is
non-empty. -/
theorem xgbFittedScaler_df529_ok : ∃ s, xgbFittedScaler df529 = .ok s := by
  unfold xgbFittedScaler standardScalerFit
  rw [if_neg (by rw [trainPartition_df529_length]; decide)]
  exact ⟨_, rfl⟩

/-- The two records genuinely differ, at raw index 500 — a row feeding
only the validation side of the split. -/
theorem df529_rows_differ_at_500 : df529.rows[500]? ≠ df529b.rows[500]? := by
  show (witRows 529)[500]? ≠ df529b.rows[500]?
  rw [witRows_getElem 529 500 (by omega), df529b_getElem 500 (by omega)]
  decide

/-- An engineered row of `df529` carries the date of its raw index. -/
theorem mkEngRow_date_of_witRows (i : Nat) (er : EngRow)
    (h : mkEngRow df529 i = some er) : er.date = ⟨i⟩ := by
  unfold mkEngRow at h
  simp only [Option.bind_eq_some, Option.some.injEq] at h
  obtain ⟨r, hr, d, hd, t, ht, ss, hss, l1, h1, l24, h24, l168, h168, heq⟩ := h
  have hi : i < df529.rows.length := by
    by_contra hge
    have hn : df529.rows[i]? = none := List.getElem?_eq_none (by omega)
    rw [hn] at hr
    cases hr
  rw [df529_rows_length] at hi
  have hr2 : (witRows 529)[i]? = some r := hr
  rw [witRows_getElem 529 i hi] at hr2
  cases hr2
  rw [← heq]
  exact (Option.some.inj hd).symm

/-- The engineered timestamps of `df529` are strictly increasing. -/
theorem df529_dates_strict_mono :
    (engineerFeatures df529).Pairwise
      (fun a b : EngRow => a.date.absHour < b.date.absHour) := by
  show ((List.range df529.rows.length).filterMap (mkEngRow df529)).Pairwise _
  refine List.Pairwise.filterMap (mkEngRow df529) ?_ (List.pairwise_lt_range _)
  intro i j hij er her er' her'
  rw [Option.mem_def] at her her'
  rw [mkEngRow_date_of_witRows i er her, mkEngRow_date_of_witRows j er' her']
  exact hij

/-- Two rows only: no row has full lag history, so the engineered
feature set is empty. -/
def dfShort : DataFrame :=
  ⟨[], [⟨some ⟨0⟩, some 1, []⟩, ⟨some ⟨1⟩, some 2, []⟩]⟩

/-- 170 hourly rows with a `T1` sensor column whose reading is missing
in row 169. -/
def dfMiss : DataFrame :=
  ⟨["T1"],
   (List.range 170).map
     (fun i => ⟨some ⟨i⟩, some (i : ℚ), [if i = 169 then none else some 1]⟩)⟩

/-- A service with only the tree-model artifacts (constant predictor). -/
def svcTree : ForecastService :=
  ⟨some ⟨fun _ => 1⟩, none, none, some exNames⟩

/-- A service with only the seasonal artifact (two fitted history rows;
the prediction is negative on even frame rows). -/
def svcSeasonal : ForecastService :=
  ⟨none, none, some ⟨2, fun i => if i % 2 = 0 then -3 else 5⟩, none⟩

def outTree : ForecastOutput := ⟨[1, 1, 1], [⟨1⟩, ⟨2⟩, ⟨3⟩], "XGBoost"⟩

def outSeasonal : ForecastOutput := ⟨[0, 5], [⟨1⟩, ⟨2⟩], "Prophet"⟩

/-! ## Witnesses -/

/-- **C1 (amended), witness** at schema `exNames`, horizon 2, row 1,
column 0. -/
theorem servingRow_built_one_hour_before_target_witness :
    ((1 : Nat) < 2 ∧ (0 : Nat) < exNames.length) ∧
    ((xgbServingRows exNames exNow 2)[1]? =
      some (servingFeatureRow exNames (exNow.addHours 1)) ∧
    (forecastTimestamps exNow 2)[1]? = some ((exNow.addHours 1).addHours 1) ∧
    (servingFeatureRow exNames (exNow.addHours 1))[0]? =
      some (if exNames.getD 0 "" = "hour" then ((exNow.addHours 1).hour : ℚ)
            else if exNames.getD 0 "" = "day_of_week" then
              ((exNow.addHours 1).weekday : ℚ)
            else if exNames.getD 0 "" = "month" then
              ((exNow.addHours 1).month : ℚ)
            else 0)) :=
  ⟨⟨by decide, by decide⟩,
   servingRow_built_one_hour_before_target exNames exNow 2 1 0
     (by decide) (by decide)⟩

/-- **C2, counterexample.**  At the 529-row record `df529` the
engineered frame has 361 rows — fewer than 720 — yet the validation
partition of the split holds 359 rows, not all 361; likewise the
seasonal trainer's 529-row series gets a 191-row validation slice, not
all 529.  The claimed degraded case "all `n` rows when `n < 720`" is
false of the program. -/
theorem validation_window_not_full_short_record :
    (engineerFeatures df529).length = 361 ∧ (361 : Nat) < 720 ∧
    (tailSplit (engineerFeatures df529)).2.length = 359 ∧
    (tailSplit (engineerFeatures df529)).2.length ≠
      (engineerFeatures df529).length ∧
    (prophetSeries df529).length = 529 ∧ (529 : Nat) < 720 ∧
    (prophetValActual df529).length = 191 ∧
    (prophetValActual df529).length ≠ (prophetSeries df529).length := by
  have hp : (prophetSeries df529).length = 529 := by
    rw [prophetSeries_eq, List.length_map, df529_rows_length]
  have he : (tailSplit (engineerFeatures df529)).2.length = 359 := by
    rw [tailSplit_snd, List.length_drop,
      tailSplitIdx_361 _ engineerFeatures_df529_length,
      engineerFeatures_df529_length]
  have hv : (prophetValActual df529).length = 191 := by
    rw [prophetValActual_eq, List.length_drop, tailSplitIdx_529 _ hp, hp]
  refine ⟨engineerFeatures_df529_length, by decide, he, ?_, hp, by decide, hv, ?_⟩
  · rw [he, engineerFeatures_df529_length]
    decide
  · rw [hv, hp]
    decide

/-- **C2 (amended), witness** at the 529-row record `df529`, whose
negative split index wraps around (training 2 rows, validation 359). -/
theorem tailSplit_python_slice_chronological_witness :
    ((engineerFeatures df529).Pairwise
      (fun a b : EngRow => a.date.absHour < b.date.absHour)) ∧
    (VALIDATION_HOURS = 720 ∧
    (tailSplit (engineerFeatures df529)).1 ++ (tailSplit (engineerFeatures df529)).2
      = engineerFeatures df529 ∧
    (∀ a ∈ (tailSplit (engineerFeatures df529)).1,
      ∀ b ∈ (tailSplit (engineerFeatures df529)).2, a.date.absHour < b.date.absHour) ∧
    (tailSplit (engineerFeatures df529)).2.length =
      (if 720 ≤ (engineerFeatures df529).length then 720
       else min (engineerFeatures df529).length
         (720 - (engineerFeatures df529).length)) ∧
    (train_prophet df529).trainSeries = (tailSplit (prophetSeries df529)).1 ∧
    prophetValActual df529 = (tailSplit (prophetSeries df529)).2 ∧
    (train_prophet df529).trainSeries ++ prophetValActual df529
      = prophetSeries df529) :=
  ⟨df529_dates_strict_mono,
   tailSplit_python_slice_chronological df529 df529_dates_strict_mono⟩

/-- **C3, witness** at the 2-row record `dfShort`. -/
theorem train_xgboost_fails_on_empty_features_witness :
    engineerFeatures dfShort = [] ∧
    train_xgboost dfShort = .error "Found array with 0 samples" :=
  ⟨by decide, train_xgboost_fails_on_empty_features dfShort (by decide)⟩

/-- **C4, witness**: a tree-path request of horizon 3. -/
theorem forecast_timestamps_hourly_witness :
    (1 ≤ 3 ∧ 3 ≤ 168 ∧ svcTree.forecast exNow 3 true = .ok outTree) ∧
    (outTree.timestamps = forecastTimestamps exNow 3 ∧
    outTree.timestamps.length = 3 ∧
    (∀ i, i < 3 → outTree.timestamps[i]? = some (exNow.addHours (i + 1))) ∧
    outTree.timestamps.Pairwise (fun a b : DateTime => a.absHour < b.absHour)) :=
  ⟨⟨by decide, by decide, by decide⟩,
   forecast_timestamps_hourly svcTree exNow 3 true outTree
     (by decide) (by decide) (by decide)⟩

/-- **C5, witness**: a seasonal-path request whose raw predictions
include a negative value. -/
theorem forecast_values_nonneg_witness :
    (svcSeasonal.forecast exNow 2 false = .ok outSeasonal) ∧
    (∀ v ∈ outSeasonal.values, 0 ≤ v) :=
  ⟨by decide, forecast_values_nonneg svcSeasonal exNow 2 false outSeasonal (by decide)⟩

/-- **C6, witness**: a horizon-24 tree-path request on a service with
only the seasonal artifact present. -/
theorem forecast_unavailable_model_errors_witness :
    (requestedMissing svcSeasonal true = true) ∧
    (svcSeasonal.forecast exNow 24 true = .error (unavailableMessage true) ∧
    (∀ out, svcSeasonal.forecast exNow 24 true ≠ .ok out)) :=
  ⟨by decide, forecast_unavailable_model_errors svcSeasonal exNow 24 true (by decide)⟩

/-- **C7, witness** at the 169-row record `df169`. -/
theorem engineerFeatures_length_and_lags_witness :
    (168 ≤ df169.rows.length ∧
      ∀ r ∈ df169.rows, r.date.isSome = true ∧ r.target.isSome = true ∧
        ∀ v ∈ r.sensors, v.isSome = true) ∧
    ((engineerFeatures df169).length = df169.rows.length - 168 ∧
    ∀ er ∈ engineerFeatures df169, ∃ i, 168 ≤ i ∧ i < df169.rows.length ∧
      mkEngRow df169 i = some er ∧
      ∀ k ∈ LAG_FEATURES, k ≤ i ∧
        lagCell df169 k i = (df169.rows[i - k]?).bind Row.target) :=
  ⟨⟨by decide, by decide⟩,
   engineerFeatures_length_and_lags df169 (by decide) (by decide)⟩

/-- **C8, witness**: `df529` and `df529b` agree on the two-row training
partition of their engineered matrices but differ at raw index 500,
which feeds only validation-partition rows; the training partition is
non-empty and the scaler fit genuinely succeeds. -/
theorem scaler_fit_on_train_partition_only_witness :
    ((tailSplit (xgbX df529)).1 = (tailSplit (xgbX df529b)).1 ∧
     (tailSplit (xgbX df529)).1.length = 2 ∧
     (∃ s, xgbFittedScaler df529 = .ok s) ∧
     df529.rows[500]? ≠ df529b.rows[500]?) ∧
    (xgbFittedScaler df529 = xgbFittedScaler df529b ∧
    (train_xgboost df529).map XGBoostResult.scaler = xgbFittedScaler df529 ∧
    (train_xgboost df529).map (fun r => r.model.evalX) =
      (xgbFittedScaler df529).map
        (fun s => (tailSplit (xgbX df529)).2.map (scalerTransform s))) :=
  ⟨⟨trainPartition_df529_eq, trainPartition_df529_length,
    xgbFittedScaler_df529_ok, df529_rows_differ_at_500⟩,
   scaler_fit_on_train_partition_only df529 df529b trainPartition_df529_eq⟩

/-- **C10, witness** at `dfMiss`, row 169 (its `T1` reading is
missing). -/
theorem dropna_drops_any_missing_cell_witness :
    ((169 : Nat) < dfMiss.rows.length) ∧
    (((mkEngRow dfMiss 169).isSome = true ↔
      ((dfMiss.rows.get ⟨169, by decide⟩).date.isSome = true ∧
        (dfMiss.rows.get ⟨169, by decide⟩).target.isSome = true ∧
        (∀ v ∈ (dfMiss.rows.get ⟨169, by decide⟩).sensors, v.isSome = true) ∧
        ∀ k ∈ LAG_FEATURES, (lagCell dfMiss k 169).isSome = true)) ∧
    (tailSplit (engineerFeatures dfMiss)).1 ++ (tailSplit (engineerFeatures dfMiss)).2
      = engineerFeatures dfMiss) :=
  ⟨by decide, dropna_drops_any_missing_cell dfMiss 169 (by decide)⟩

end EnergyWise
